import Mathlib

/-!
Verification development for the feedback monitor of SynTechRev-PolyCodCal
(src/syntechrev_polycodcal/feedback_monitor.py).

Python floats are modelled as rationals, timestamps as epoch seconds in the
rationals, the deque buffer as a list (head = front of the deque), and the
event dict as a record of the three fields the code reads.  The distinct
Python exception conditions are modelled by an inductive error type.

The repository also contains tests/test_feedback_monitor_hysteresis.py, which
exercises a hysteresis variant of FeedbackMonitor (constructor arguments
trigger_threshold and clear_threshold, the _alert_active flag, and the
negative_feedback_recovery alert type).  That variant is not present under
src/; where it decides a claim, the definitions below marked
"Modelled from the spec" reconstruct it from the specification.
-/

/-- Result of event.get on the timestamp key.  `null` stands for an absent key
or an explicit Python None; `other` stands for any value that is not None, not
numeric and not a string (for example object()). -/
inductive TsValue where
  | null : TsValue
  | num : ℚ → TsValue
  | str : String → TsValue
  | other : TsValue
deriving DecidableEq

/-- The three fields of the event dict that ingest reads.  outcome is none
when the key is absent or the value is Python None, matching event.get. -/
structure Event where
  outcome : Option String
  timestamp : TsValue
  source : Option String
deriving DecidableEq

/-- Distinct error conditions of the Python code and of the spec.
configError is the ConfigError of the spec (a ValueError in the hysteresis
tests); missingField is the ValueError raised by ingest for a missing or null
outcome (the MissingFieldError of the spec); timestampType is the TypeError
raised by the function that normalizes timestamps for an unsupported value
type; timestampParse is the ValueError raised by datetime.fromisoformat when
a string fails to parse. -/
inductive MonitorError where
  | configError : MonitorError
  | missingField : MonitorError
  | timestampType : MonitorError
  | timestampParse : MonitorError
deriving DecidableEq

/-! ### ISO-8601 parsing, modelling datetime.fromisoformat

The model covers the strict format YYYY-MM-DD, optionally followed by a
separator character then HH:MM or HH:MM:SS, optionally followed by a UTC
offset of the form +HH:MM or -HH:MM.  Fractional seconds are not modelled.
The separator accepted here is T or a space. -/

/-- Value of a decimal digit character, none for a non-digit. -/
def digitVal (c : Char) : Option ℕ :=
  if c.isDigit then some (c.toNat - 48) else none

/-- Read exactly two digits from the front of the character list. -/
def read2 : List Char → Option (ℕ × List Char)
  | c1 :: c2 :: rest => do
      let d1 ← digitVal c1
      let d2 ← digitVal c2
      pure (10 * d1 + d2, rest)
  | _ => none

/-- Read exactly four digits from the front of the character list. -/
def read4 : List Char → Option (ℕ × List Char)
  | c1 :: c2 :: c3 :: c4 :: rest => do
      let d1 ← digitVal c1
      let d2 ← digitVal c2
      let d3 ← digitVal c3
      let d4 ← digitVal c4
      pure (1000 * d1 + 100 * d2 + 10 * d3 + d4, rest)
  | _ => none

/-- Gregorian leap-year rule. -/
def isLeap (y : ℕ) : Bool :=
  (y % 4 == 0 && y % 100 != 0) || (y % 400 == 0)

/-- Number of days in a month of the proleptic Gregorian calendar. -/
def daysInMonth (y m : ℕ) : ℕ :=
  if m = 2 then (if isLeap y then 29 else 28)
  else if m = 4 ∨ m = 6 ∨ m = 9 ∨ m = 11 then 30
  else 31

/-- Days from 1970-01-01 to the given civil date, the standard era-based
computation.  All divisions below are applied to non-negative operands or are
exact, so truncating integer division agrees with floor division here. -/
def daysFromCivil (y m d : ℤ) : ℤ :=
  let y1 : ℤ := y - (if m ≤ 2 then 1 else 0)
  let era : ℤ := (if 0 ≤ y1 then y1 else y1 - 399) / 400
  let yoe : ℤ := y1 - era * 400
  let doy : ℤ := (153 * (m + (if 2 < m then -3 else 9)) + 2) / 5 + d - 1
  let doe : ℤ := yoe * 365 + yoe / 4 - yoe / 100 + doy
  era * 146097 + doe - 719468

/-- Read HH:MM or HH:MM:SS, returning seconds into the day. -/
def readTimeOfDay (cs : List Char) : Option (ℕ × List Char) := do
  let (h, r1) ← read2 cs
  match r1 with
  | ':' :: r2 => do
      let (mi, r3) ← read2 r2
      match r3 with
      | ':' :: r4 => do
          let (s, r5) ← read2 r4
          if h ≤ 23 ∧ mi ≤ 59 ∧ s ≤ 59 then
            pure (h * 3600 + mi * 60 + s, r5)
          else none
      | _ =>
          if h ≤ 23 ∧ mi ≤ 59 then pure (h * 3600 + mi * 60, r3) else none
  | _ => none

/-- Read a HH:MM offset body, returning seconds. -/
def readOffsetBody (cs : List Char) : Option (ℕ × List Char) := do
  let (h, r1) ← read2 cs
  match r1 with
  | ':' :: r2 => do
      let (mi, r3) ← read2 r2
      if h ≤ 23 ∧ mi ≤ 59 then pure (h * 3600 + mi * 60, r3) else none
  | _ => none

/-- Parse a full ISO-8601 string (as a character list).  Returns the naive
epoch seconds of the parsed date-time together with the explicit UTC offset
in seconds when one is present, none for a naive string. -/
def parseIsoChars (cs : List Char) : Option (ℚ × Option ℚ) := do
  let (y, r1) ← read4 cs
  match r1 with
  | '-' :: r2 => do
    let (mo, r3) ← read2 r2
    match r3 with
    | '-' :: r4 => do
      let (d, r5) ← read2 r4
      if 1 ≤ mo ∧ mo ≤ 12 ∧ 1 ≤ d ∧ d ≤ daysInMonth y mo then
        let dayNum : ℤ := daysFromCivil (y : ℤ) (mo : ℤ) (d : ℤ)
        match r5 with
        | [] => pure (((dayNum * 86400 : ℤ) : ℚ), none)
        | sep :: r6 =>
          if sep = 'T' ∨ sep = ' ' then do
            let (tsec, r7) ← readTimeOfDay r6
            let naive : ℚ := ((dayNum * 86400 : ℤ) : ℚ) + (tsec : ℚ)
            match r7 with
            | [] => pure (naive, none)
            | '+' :: r8 => do
                let (osec, r9) ← readOffsetBody r8
                if r9 = [] then pure (naive, some ((osec : ℚ))) else none
            | '-' :: r8 => do
                let (osec, r9) ← readOffsetBody r8
                if r9 = [] then pure (naive, some (-(osec : ℚ))) else none
            | _ => none
          else none
      else none
    | _ => none
  | _ => none

/-- Epoch seconds denoted by an ISO string, modelling
datetime.fromisoformat(s) followed by the replace-with-UTC step of the code:
a string without an offset is interpreted as UTC (offset zero), a string with
an offset denotes naive seconds minus the offset. -/
def isoTimestamp (s : String) : Option ℚ :=
  match parseIsoChars s.toList with
  | some (naive, none) => some naive
  | some (naive, some off) => some (naive - off)
  | none => none

/-- Model of the timestamp normalization function of the source: None maps to
the current wall-clock time (passed explicitly as now), numerics are taken as
epoch seconds, strings are parsed as ISO-8601 (a parse failure is the
ValueError of fromisoformat), and any other value raises TypeError. -/
def toTs (now : ℚ) : TsValue → Except MonitorError ℚ
  | TsValue.null => Except.ok now
  | TsValue.num x => Except.ok x
  | TsValue.str s =>
      match isoTimestamp s with
      | some t => Except.ok t
      | none => Except.error MonitorError.timestampParse
  | TsValue.other => Except.error MonitorError.timestampType

/-! ### The sliding-window monitor state of the source -/

/-- One retained entry of the window: the (ts, outcome, source) triple the
source appends to its deque. -/
structure WindowEntry where
  ts : ℚ
  outcome : String
  source : Option String
deriving DecidableEq

/-- Monitor state of the source class.  The alert callback is not stored in
the state model; it is passed explicitly to the check variant that invokes
it. -/
structure FeedbackMonitor where
  window_seconds : ℤ
  threshold : ℚ
  negative_key : List String
  buffer : List WindowEntry
deriving DecidableEq

/-- Constructor of the source class.  The negative_key argument is combined
with the default via Python or, which replaces both None and an explicitly
empty set by the default set of labels. -/
def FeedbackMonitor.init (ws : ℤ) (th : ℚ) (nk : Option (List String)) :
    FeedbackMonitor :=
  { window_seconds := ws
    threshold := th
    negative_key :=
      match nk with
      | none => ["negative", "error"]
      | some l => if l.isEmpty then ["negative", "error"] else l
    buffer := [] }

/-- Eviction loop of the source: pop entries from the front of the deque
while the front entry is older than the cutoff. -/
def FeedbackMonitor.expireOld (m : FeedbackMonitor) (nowTs : ℚ) :
    FeedbackMonitor :=
  { m with
    buffer := m.buffer.dropWhile
      (fun e => decide (e.ts < nowTs - (m.window_seconds : ℚ))) }

/-- ingest of the source, returning the post-call state together with the
raised error when one is raised.  The missing-outcome check precedes
timestamp normalization, and both precede the append, exactly as in the
source, so every error path leaves the state unchanged. -/
def FeedbackMonitor.ingestRun (m : FeedbackMonitor) (now : ℚ) (ev : Event) :
    FeedbackMonitor × Option MonitorError :=
  match ev.outcome with
  | none => (m, some MonitorError.missingField)
  | some o =>
      match toTs now ev.timestamp with
      | Except.error e => (m, some e)
      | Except.ok ts =>
          let m1 : FeedbackMonitor :=
            { m with buffer := m.buffer ++ [⟨ts, o, ev.source⟩] }
          (m1.expireOld ts, none)

/-! ### Aggregation, modelling summarize -/

/-- Counter increment: bump the count of a key in an association list that
keeps insertion order, appending a fresh key at the tail, exactly as a Python
Counter update does. -/
def bump (l : List (String × ℕ)) (k : String) : List (String × ℕ) :=
  match l with
  | [] => [(k, 1)]
  | (k0, v) :: rest =>
      if k0 = k then (k0, v + 1) :: rest else (k0, v) :: bump rest k

/-- Dictionary lookup with default zero, modelling counts.get(k, 0). -/
def getCount (l : List (String × ℕ)) (k : String) : ℕ :=
  match l with
  | [] => 0
  | (k0, v) :: rest => if k0 = k then v else getCount rest k

/-- The outcome Counter built by the summarize loop, in buffer order. -/
def countsOfOutcomes (buf : List WindowEntry) : List (String × ℕ) :=
  buf.foldl (fun acc e => bump acc e.outcome) []

/-- The source Counter built by the summarize loop.  Only entries with a
truthy source are counted, so an absent source and an empty-string source are
both skipped, matching the if statement of the source. -/
def countsOfSources (buf : List WindowEntry) : List (String × ℕ) :=
  buf.foldl
    (fun acc e =>
      match e.source with
      | some s => if s.isEmpty then acc else bump acc s
      | none => acc) []

/-- Stable insertion for a descending sort by count: an element is placed
before the first strictly smaller count, so elements with equal counts keep
their original relative order, as Python sorted with reverse does. -/
def insertDesc (x : String × ℕ) : List (String × ℕ) → List (String × ℕ)
  | [] => [x]
  | y :: rest => if y.2 ≤ x.2 then x :: y :: rest else y :: insertDesc x rest

/-- Stable sort by count descending, modelling Counter.most_common. -/
def sortByCountDesc : List (String × ℕ) → List (String × ℕ)
  | [] => []
  | x :: rest => insertDesc x (sortByCountDesc rest)

/-- The dict returned by summarize. -/
structure Summary where
  total : ℕ
  counts : List (String × ℕ)
  negative_count : ℕ
  negative_rate : ℚ
  top_sources : List (String × ℕ)
deriving DecidableEq

/-- Body of summarize as a function of the buffer and of the negative label
set: total is the buffer length, negative_count sums the counts of the
negative labels, negative_rate divides only when total is positive, and
top_sources lists the five most common truthy sources. -/
def aggregate (buf : List WindowEntry) (nk : List String) : Summary :=
  let total := buf.length
  let counts := countsOfOutcomes buf
  let negative_count := (nk.map (fun k => getCount counts k)).sum
  { total := total
    counts := counts
    negative_count := negative_count
    negative_rate :=
      if 0 < total then (negative_count : ℚ) / (total : ℚ) else 0
    top_sources := (sortByCountDesc (countsOfSources buf)).take 5 }

/-- summarize of the source.  It reads the buffer as it stands: the source
method does not evict before aggregating. -/
def FeedbackMonitor.summarize (m : FeedbackMonitor) : Summary :=
  aggregate m.buffer m.negative_key

/-! ### check of the source -/

/-- The details payload of an alert. -/
structure AlertDetails where
  total : ℕ
  negative_count : ℕ
  counts : List (String × ℕ)
  top_sources : List (String × ℕ)
deriving DecidableEq

/-- The Alert dataclass of the source. -/
structure Alert where
  alert_type : String
  timestamp : ℚ
  window_seconds : ℤ
  metric_value : ℚ
  threshold : ℚ
  details : AlertDetails
deriving DecidableEq

/-- check of the source without a configured callback: evict relative to the
wall clock (passed explicitly as now), summarize, and return an alert when
the negative rate meets the single threshold on a non-empty window. -/
def FeedbackMonitor.check (m : FeedbackMonitor) (now : ℚ) :
    FeedbackMonitor × Option Alert :=
  let m1 := m.expireOld now
  let s := m1.summarize
  if m.threshold ≤ s.negative_rate ∧ 0 < s.total then
    (m1, some
      { alert_type := "negative_feedback_spike"
        timestamp := now
        window_seconds := m.window_seconds
        metric_value := s.negative_rate
        threshold := m.threshold
        details :=
          { total := s.total
            negative_count := s.negative_count
            counts := s.counts
            top_sources := s.top_sources } })
  else (m1, none)

/-- try/except around the callback invocation: the callback result is
computed and then discarded, both of its outcomes continuing to the same
value, which is what an except clause holding only pass does. -/
def trySwallow {ε α γ : Type} (r : Except ε α) (k : γ) : γ :=
  match r with
  | Except.ok _ => k
  | Except.error _ => k

/-- check of the source with a configured callback.  The callback is invoked
with the alert inside a try block whose except clause discards any raised
exception, so both outcomes of the callback continue to the same return. -/
def FeedbackMonitor.checkCb (m : FeedbackMonitor) (now : ℚ)
    (cb : Alert → Except String Unit) :
    Except String (FeedbackMonitor × Option Alert) :=
  let m1 := m.expireOld now
  let s := m1.summarize
  if m.threshold ≤ s.negative_rate ∧ 0 < s.total then
    let a : Alert :=
      { alert_type := "negative_feedback_spike"
        timestamp := now
        window_seconds := m.window_seconds
        metric_value := s.negative_rate
        threshold := m.threshold
        details :=
          { total := s.total
            negative_count := s.negative_count
            counts := s.counts
            top_sources := s.top_sources } }
    trySwallow (cb a) (Except.ok (m1, some a))
  else Except.ok (m1, none)

/-! ### The hysteresis monitor of the spec

tests/test_feedback_monitor_hysteresis.py constructs FeedbackMonitor with
trigger_threshold and clear_threshold arguments, reads an _alert_active flag
and expects negative_feedback_recovery alerts; none of these exist in the
class under src/.  The definitions below reconstruct that missing variant
from the specification. -/

/-- Kind of an emitted hysteresis alert. -/
inductive AlertKind where
  | spike : AlertKind
  | recovery : AlertKind
deriving DecidableEq

/-- Alert emitted by the hysteresis monitor: kind, wall-clock time of the
check call, window width, the computed rate, the threshold that was crossed,
and a details payload mirroring the summarize output. -/
structure HAlert where
  kind : AlertKind
  timestamp : ℚ
  window_seconds : ℤ
  metric_value : ℚ
  threshold : ℚ
  details : AlertDetails
deriving DecidableEq

/-- Modelled from the spec: the MonitorState of the hysteresis monitor, whose
implementation is missing from src/ (only its tests are present).  It extends
the source state with the trigger and clear thresholds and the alert_active
flag, initially false. -/
structure HMonitor where
  window_seconds : ℤ
  threshold : ℚ
  trigger_threshold : ℚ
  clear_threshold : ℚ
  negative_key : List String
  alert_active : Bool
  buffer : List WindowEntry
deriving DecidableEq

/-- Modelled from the spec: construction of the hysteresis monitor, missing
from src/.  When both trigger_threshold and clear_threshold are supplied,
construction fails with ConfigError when clear_threshold is at or above
trigger_threshold; when either is omitted it defaults to the legacy single
threshold; the negative outcome set defaults to the two standard labels;
alert_active starts false. -/
def HMonitor.new (ws : ℤ) (th : ℚ) (trig clr : Option ℚ)
    (nk : Option (List String)) : Except MonitorError HMonitor :=
  match trig, clr with
  | some t, some c =>
      if t ≤ c then Except.error MonitorError.configError
      else Except.ok
        { window_seconds := ws
          threshold := th
          trigger_threshold := t
          clear_threshold := c
          negative_key := nk.getD ["negative", "error"]
          alert_active := false
          buffer := [] }
  | _, _ =>
      Except.ok
        { window_seconds := ws
          threshold := th
          trigger_threshold := trig.getD th
          clear_threshold := clr.getD th
          negative_key := nk.getD ["negative", "error"]
          alert_active := false
          buffer := [] }

/-- Modelled from the spec: eviction of the hysteresis monitor, identical to
the eviction loop of the source class. -/
def HMonitor.expireOld (m : HMonitor) (nowTs : ℚ) : HMonitor :=
  { m with
    buffer := m.buffer.dropWhile
      (fun e => decide (e.ts < nowTs - (m.window_seconds : ℚ))) }

/-- Modelled from the spec: ingest of the hysteresis monitor, missing from
src/; per the spec it fails with MissingFieldError when outcome is absent or
null, normalizes the timestamp, appends at the tail and evicts keyed to the
ingested event timestamp, exactly as the source class does. -/
def HMonitor.ingestRun (m : HMonitor) (now : ℚ) (ev : Event) :
    HMonitor × Option MonitorError :=
  match ev.outcome with
  | none => (m, some MonitorError.missingField)
  | some o =>
      match toTs now ev.timestamp with
      | Except.error e => (m, some e)
      | Except.ok ts =>
          let m1 : HMonitor :=
            { m with buffer := m.buffer ++ [⟨ts, o, ev.source⟩] }
          (m1.expireOld ts, none)

/-- Alert value emitted by the hysteresis check. -/
def HMonitor.mkAlert (m : HMonitor) (k : AlertKind) (now : ℚ) (s : Summary)
    (crossed : ℚ) : HAlert :=
  { kind := k
    timestamp := now
    window_seconds := m.window_seconds
    metric_value := s.negative_rate
    threshold := crossed
    details :=
      { total := s.total
        negative_count := s.negative_count
        counts := s.counts
        top_sources := s.top_sources } }

/-- Modelled from the spec: check of the hysteresis monitor, missing from
src/.  It evicts relative to the wall clock (passed explicitly as now),
computes the rate as summarize does, and follows the transition table: from
alert_active false it emits a Spike and sets the flag when the window is
non-empty and the rate is at or above the trigger threshold; from true it
emits a Recovery and clears the flag when the window is non-empty and the
rate is at or below the clear threshold; otherwise it emits nothing. -/
def HMonitor.check (m : HMonitor) (now : ℚ) : HMonitor × Option HAlert :=
  let m1 := m.expireOld now
  let s := aggregate m1.buffer m1.negative_key
  if m.alert_active then
    if 0 < s.total ∧ s.negative_rate ≤ m.clear_threshold then
      ({ m1 with alert_active := false },
        some (m.mkAlert AlertKind.recovery now s m.clear_threshold))
    else (m1, none)
  else
    if 0 < s.total ∧ m.trigger_threshold ≤ s.negative_rate then
      ({ m1 with alert_active := true },
        some (m.mkAlert AlertKind.spike now s m.trigger_threshold))
    else (m1, none)

/-- Modelled from the spec: check of the hysteresis monitor with a configured
callback.  The callback is invoked synchronously with the emitted alert
before the return; a failure it raises is caught and discarded, so both of
its outcomes continue to the same return value. -/
def HMonitor.checkCb (m : HMonitor) (now : ℚ)
    (cb : HAlert → Except String Unit) :
    Except String (HMonitor × Option HAlert) :=
  let m1 := m.expireOld now
  let s := aggregate m1.buffer m1.negative_key
  if m.alert_active then
    if 0 < s.total ∧ s.negative_rate ≤ m.clear_threshold then
      let a := m.mkAlert AlertKind.recovery now s m.clear_threshold
      trySwallow (cb a) (Except.ok ({ m1 with alert_active := false }, some a))
    else Except.ok (m1, none)
  else
    if 0 < s.total ∧ m.trigger_threshold ≤ s.negative_rate then
      let a := m.mkAlert AlertKind.spike now s m.trigger_threshold
      trySwallow (cb a) (Except.ok ({ m1 with alert_active := true }, some a))
    else Except.ok (m1, none)

/-! ### Concrete states and streams used by the theorems below -/

deriving instance DecidableEq for Except

/-- Event with the given outcome at the given numeric timestamp. -/
def evAt (o : String) (t : ℚ) : Event :=
  { outcome := some o, timestamp := TsValue.num t, source := none }

/-- Ingest a known-good event into the hysteresis monitor, keeping the
state (the events fed through this helper carry numeric timestamps, so the
wall-clock argument is irrelevant and fixed at zero). -/
def HMonitor.ing (m : HMonitor) (ev : Event) : HMonitor :=
  (m.ingestRun 0 ev).1

/-- The monitor of the spec scenarios: trigger threshold three fifths and
clear threshold two fifths. -/
def hmScen0 : HMonitor :=
  { window_seconds := 30, threshold := 1/2, trigger_threshold := 3/5,
    clear_threshold := 2/5, negative_key := ["negative", "error"],
    alert_active := false, buffer := [] }

/-- Scenario A state: three negative and two ok events in the window. -/
def scenA : HMonitor :=
  ((((hmScen0.ing (evAt "negative" 100)).ing (evAt "negative" 100)).ing
      (evAt "negative" 100)).ing (evAt "ok" 100)).ing (evAt "ok" 100)

/-- Scenario B state: scenario A checked, then two more ok events. -/
def scenB : HMonitor :=
  ((scenA.check 100).1.ing (evAt "ok" 100)).ing (evAt "ok" 100)

/-- Scenario C state: scenario B checked, then one more ok event. -/
def scenC : HMonitor :=
  (scenB.check 100).1.ing (evAt "ok" 100)

/-- A state that spikes when checked at time 115 and recovers when the
resulting state is checked at time 140, after the negatives age out. -/
def hmSpike : HMonitor :=
  { window_seconds := 30, threshold := 1/2, trigger_threshold := 3/5,
    clear_threshold := 2/5, negative_key := ["negative", "error"],
    alert_active := false,
    buffer :=
      [⟨100, "negative", none⟩, ⟨100, "negative", none⟩,
       ⟨100, "negative", none⟩, ⟨130, "ok", none⟩, ⟨130, "ok", none⟩] }

/-- A callback that always raises. -/
def cbFail : Alert → Except String Unit := fun _ => Except.error "fail"

/-- A hysteresis callback that always raises. -/
def hcbFail : HAlert → Except String Unit := fun _ => Except.error "fail"

/-- Monitor constructed with an explicitly empty negative outcome set. -/
def mEmptyKey : FeedbackMonitor := FeedbackMonitor.init 60 (1/5) (some [])

/-- The empty-set monitor after one negative and one error event. -/
def mEmptyKey2 : FeedbackMonitor :=
  ((mEmptyKey.ingestRun 0 (evAt "negative" 100)).1.ingestRun 0
      (evAt "error" 100)).1

/-- A monitor holding one entry at time zero, far older than the pretended
wall-clock call time used against it. -/
def mStale : FeedbackMonitor :=
  ((FeedbackMonitor.init 60 (1/5) none).ingestRun 0 (evAt "ok" 0)).1

/-- The stale monitor after one more negative entry at time zero. -/
def mRateW : FeedbackMonitor :=
  (mStale.ingestRun 0 (evAt "negative" 0)).1

/-- Replay a finite stream: each event is ingested at its paired wall-clock
time; a raised error aborts the replay, as the exception would. -/
def replayAt (m : FeedbackMonitor) :
    List (ℚ × Event) → FeedbackMonitor × Option MonitorError
  | [] => (m, none)
  | (now, ev) :: rest =>
      match m.ingestRun now ev with
      | (m1, none) => replayAt m1 rest
      | (m1, some e) => (m1, some e)

/-- Out-of-order ingestion, first step: entry at time 300. -/
def mOoo1 : FeedbackMonitor :=
  ((FeedbackMonitor.init 60 (1/5) none).ingestRun 0 (evAt "a" 300)).1

/-- Out-of-order ingestion, second step: entry at time 100 behind 300. -/
def mOoo2 : FeedbackMonitor :=
  (mOoo1.ingestRun 0 (evAt "b" 100)).1

/-- Out-of-order ingestion, third step: entry at time 200, whose cutoff 140
exceeds the timestamp of the entry at 100 sitting behind the head. -/
def mOoo3 : FeedbackMonitor :=
  (mOoo2.ingestRun 0 (evAt "c" 200)).1

/-- An event whose timestamp string fails to parse as ISO-8601. -/
def evBadTs : Event :=
  { outcome := some "ok", timestamp := TsValue.str "not an iso date",
    source := none }

/-- Number of window entries with the given outcome. -/
def occCount (k : String) (buf : List WindowEntry) : ℕ :=
  (buf.filter (fun e => decide (e.outcome = k))).length

/-! ### Helper lemmas -/

/-- The try/except wrapper returns its continuation whatever the callback
outcome was. -/
theorem trySwallow_eq {e a c : Type} (r : Except e a) (k : c) :
    trySwallow r k = k := by
  cases r <;> rfl

/-- Timestamp normalization never produces the missing-field or config
errors: its failures are the unsupported-type error and the parse error. -/
theorem toTs_error_kinds (now : ℚ) (v : TsValue) (e : MonitorError)
    (h : toTs now v = Except.error e) :
    e = MonitorError.timestampType ∨ e = MonitorError.timestampParse := by
  cases v with
  | null => simp [toTs] at h
  | num x => simp [toTs] at h
  | str s =>
      cases hp : isoTimestamp s with
      | none =>
          simp [toTs, hp] at h
          exact Or.inr h.symm
      | some t => simp [toTs, hp] at h
  | other =>
      simp [toTs] at h
      exact Or.inl h.symm

/-- A spike is only emitted from an inactive state. -/
theorem check_spike_inactive (m : HMonitor) (t : ℚ)
    (h : (m.check t).2.map HAlert.kind = some AlertKind.spike) :
    m.alert_active = false := by
  cases hA : m.alert_active
  · rfl
  · exfalso
    simp only [HMonitor.check, hA, if_true] at h
    split_ifs at h with hc
    · simp [HMonitor.mkAlert] at h
    · simp at h

/-- A recovery is only emitted from an active state. -/
theorem check_recovery_active (m : HMonitor) (t : ℚ)
    (h : (m.check t).2.map HAlert.kind = some AlertKind.recovery) :
    m.alert_active = true := by
  cases hA : m.alert_active
  · exfalso
    simp only [HMonitor.check, hA, Bool.false_eq_true, if_false] at h
    split_ifs at h with hc
    · simp [HMonitor.mkAlert] at h
    · simp at h
  · rfl

/-- After an emitted spike the hysteresis flag is set. -/
theorem check_spike_post_active (m : HMonitor) (t : ℚ)
    (h : (m.check t).2.map HAlert.kind = some AlertKind.spike) :
    (m.check t).1.alert_active = true := by
  have hA := check_spike_inactive m t h
  simp only [HMonitor.check, hA, Bool.false_eq_true, if_false] at h ⊢
  split_ifs at h ⊢ with hc
  · rfl
  · simp at h

/-- No spike is emitted from an active state. -/
theorem check_active_no_spike (m : HMonitor) (t : ℚ)
    (hA : m.alert_active = true) :
    (m.check t).2.map HAlert.kind ≠ some AlertKind.spike := by
  intro h
  rw [check_spike_inactive m t h] at hA
  exact Bool.false_ne_true hA

/-- On a list sorted by timestamp, dropping the head run below the cutoff
removes exactly the entries below the cutoff. -/
theorem dropWhile_eq_filter_of_sorted (l : List WindowEntry) (c : ℚ)
    (h : l.Pairwise (fun a b => a.ts ≤ b.ts)) :
    l.dropWhile (fun e => decide (e.ts < c)) =
      l.filter (fun e => decide (c ≤ e.ts)) := by
  induction l with
  | nil => rfl
  | cons x xs ih =>
      rcases List.pairwise_cons.mp h with ⟨hx, hxs⟩
      by_cases hlt : x.ts < c
      · simp [List.dropWhile_cons, List.filter_cons, hlt, not_le.mpr hlt,
          ih hxs]
      · have hxc : c ≤ x.ts := le_of_not_lt hlt
        have hall : ∀ e ∈ xs, c ≤ e.ts := fun e he =>
          le_trans hxc (hx e he)
        simp only [List.dropWhile_cons, List.filter_cons]
        rw [if_neg (by simpa using hlt), if_pos (by simpa using hxc)]
        congr 1
        exact (List.filter_eq_self.mpr
          (fun e he => decide_eq_true (hall e he))).symm

/-- ingest does not read the wall clock when the event carries an explicit
timestamp value. -/
theorem ingestRun_time_indep (m : FeedbackMonitor) (now1 now2 : ℚ)
    (ev : Event) (h : ev.timestamp ≠ TsValue.null) :
    m.ingestRun now1 ev = m.ingestRun now2 ev := by
  rcases ev with ⟨o, tsv, src⟩
  cases o with
  | none => rfl
  | some o => cases tsv with
    | null => exact absurd rfl h
    | num x => rfl
    | str s => rfl
    | other => rfl

/-- Replay of an explicitly timestamped stream is independent of the
wall-clock times of the calls. -/
theorem replayAt_time_indep (evs : List Event) :
    ∀ (m : FeedbackMonitor) (nows1 nows2 : List ℚ),
    nows1.length = evs.length → nows2.length = evs.length →
    (∀ ev ∈ evs, ev.timestamp ≠ TsValue.null) →
    replayAt m (nows1.zip evs) = replayAt m (nows2.zip evs) := by
  induction evs with
  | nil =>
      intro m nows1 nows2 h1 h2 hx
      rw [List.length_nil, List.length_eq_zero] at h1 h2
      rw [h1, h2]
  | cons ev rest ih =>
      intro m nows1 nows2 h1 h2 hx
      cases nows1 with
      | nil => simp at h1
      | cons n1 ns1 =>
          cases nows2 with
          | nil => simp at h2
          | cons n2 ns2 =>
              simp only [List.zip_cons_cons, replayAt]
              rw [ingestRun_time_indep m n1 n2 ev
                (hx ev (List.mem_cons_self ev rest))]
              cases hr : m.ingestRun n2 ev with
              | mk m1 err =>
                  cases err with
                  | none =>
                      simp only []
                      exact ih m1 ns1 ns2 (by simpa using h1)
                        (by simpa using h2)
                        (fun e he => hx e (List.mem_cons_of_mem ev he))
                  | some e => rfl

/-- Bumping a key increments its stored count. -/
theorem getCount_bump_self (l : List (String × ℕ)) (k : String) :
    getCount (bump l k) k = getCount l k + 1 := by
  induction l with
  | nil => simp [bump, getCount]
  | cons p rest ih =>
      rcases p with ⟨k0, v⟩
      by_cases h : k0 = k
      · simp [bump, getCount, h]
      · simp [bump, getCount, h, ih]

/-- Bumping a key leaves the other counts unchanged. -/
theorem getCount_bump_ne (l : List (String × ℕ)) (k q : String)
    (hne : k ≠ q) : getCount (bump l k) q = getCount l q := by
  induction l with
  | nil => simp [bump, getCount, hne]
  | cons p rest ih =>
      rcases p with ⟨k0, v⟩
      by_cases h : k0 = k
      · simp [bump, getCount, h, hne]
      · simp [bump, getCount, h, ih]

/-- Folding the counter over a buffer adds the occurrence count of each key
to its count in the accumulator. -/
theorem getCount_fold (buf : List WindowEntry) :
    ∀ (acc : List (String × ℕ)) (k : String),
    getCount (buf.foldl (fun a e => bump a e.outcome) acc) k =
      getCount acc k + occCount k buf := by
  induction buf with
  | nil => intro acc k; simp [occCount]
  | cons e t ih =>
      intro acc k
      simp only [List.foldl_cons]
      rw [ih]
      by_cases h : e.outcome = k
      · rw [h, getCount_bump_self]
        simp [occCount, List.filter_cons, h]
        omega
      · rw [getCount_bump_ne acc e.outcome k h]
        simp [occCount, List.filter_cons, h]

/-- The outcome counter stores the occurrence count of every key. -/
theorem countsOf_getCount (buf : List WindowEntry) (k : String) :
    getCount (countsOfOutcomes buf) k = occCount k buf := by
  rw [countsOfOutcomes, getCount_fold buf [] k]
  simp [getCount]

/-- Sums over a list split across pointwise addition. -/
theorem sum_map_add_nat (l : List String) (f g : String → ℕ) :
    (l.map (fun k => f k + g k)).sum = (l.map f).sum + (l.map g).sum := by
  induction l with
  | nil => rfl
  | cons k t ih => simp [ih]; omega

/-- Indicator sums vanish when the tested key is absent. -/
theorem sum_indicator_zero (l : List String) (q : String) (h : q ∉ l) :
    (l.map (fun k => if q = k then (1 : ℕ) else 0)).sum = 0 := by
  induction l with
  | nil => rfl
  | cons k t ih =>
      have hqk : q ≠ k := fun hq => h (hq ▸ List.mem_cons_self k t)
      have hqt : q ∉ t := fun hq => h (List.mem_cons_of_mem k hq)
      simp [hqk, ih hqt]

/-- Over a duplicate-free key list an indicator sum is at most one. -/
theorem sum_indicator_le_one (l : List String) (q : String)
    (h : l.Nodup) :
    (l.map (fun k => if q = k then (1 : ℕ) else 0)).sum ≤ 1 := by
  induction l with
  | nil => simp
  | cons k t ih =>
      rcases List.nodup_cons.mp h with ⟨hk, ht⟩
      by_cases hq : q = k
      · subst hq
        simp [sum_indicator_zero t q hk]
      · simp [hq]
        exact ih ht

/-- Occurrence counts of distinct outcomes sum to at most the buffer
length. -/
theorem sum_occ_le_length (nk : List String) (buf : List WindowEntry)
    (h : nk.Nodup) :
    (nk.map (fun k => occCount k buf)).sum ≤ buf.length := by
  induction buf with
  | nil => simp [occCount]
  | cons e t ih =>
      have hsplit : ∀ k, occCount k (e :: t) =
          (if e.outcome = k then 1 else 0) + occCount k t := by
        intro k
        by_cases h2 : e.outcome = k
        · simp [occCount, List.filter_cons, h2]
          omega
        · simp [occCount, List.filter_cons, h2]
      calc (nk.map (fun k => occCount k (e :: t))).sum
          = (nk.map (fun k =>
              (if e.outcome = k then 1 else 0) + occCount k t)).sum := by
            simp only [hsplit]
        _ = (nk.map (fun k => if e.outcome = k then 1 else 0)).sum +
              (nk.map (fun k => occCount k t)).sum :=
            sum_map_add_nat nk _ _
        _ ≤ 1 + t.length :=
            Nat.add_le_add (sum_indicator_le_one nk e.outcome h) ih
        _ = (e :: t).length := by simp [Nat.add_comm]

/-- The negative count never exceeds the total when the negative label set
is duplicate-free, as a Python set is. -/
theorem negative_count_le_total (buf : List WindowEntry) (nk : List String)
    (h : nk.Nodup) :
    (aggregate buf nk).negative_count ≤ (aggregate buf nk).total := by
  show (nk.map (fun k => getCount (countsOfOutcomes buf) k)).sum ≤ buf.length
  calc (nk.map (fun k => getCount (countsOfOutcomes buf) k)).sum
      = (nk.map (fun k => occCount k buf)).sum := by
        simp only [countsOf_getCount]
    _ ≤ buf.length := sum_occ_le_length nk buf h

/-! ### Claim theorems -/

/-- C1: for every hysteresis monitor state (reachable states included) and
every check call, check never emits a Spike while alert_active is already
true and never emits a Recovery while alert_active is false, and two
consecutive check calls on the same monitor never emit two Spikes. -/
theorem hysteresis_no_reemit (m : HMonitor) (t1 t2 : ℚ) :
    ((m.check t1).2.map HAlert.kind = some AlertKind.spike →
      m.alert_active = false) ∧
    ((m.check t1).2.map HAlert.kind = some AlertKind.recovery →
      m.alert_active = true) ∧
    ((m.check t1).2.map HAlert.kind = some AlertKind.spike →
      ((m.check t1).1.check t2).2.map HAlert.kind ≠ some AlertKind.spike) :=
  ⟨check_spike_inactive m t1, check_recovery_active m t1,
   fun h => check_active_no_spike (m.check t1).1 t2
     (check_spike_post_active m t1 h)⟩

/-- C1 witness: the concrete state hmSpike emits a Spike when checked at
time 115, so the theorem yields that it was inactive and that the follow-up
check cannot emit a second Spike. -/
theorem hysteresis_no_reemit_witness :
    hmSpike.alert_active = false ∧
    ((hmSpike.check 115).1.check 140).2.map HAlert.kind ≠
      some AlertKind.spike :=
  ⟨(hysteresis_no_reemit hmSpike 115 140).1 (by with_unfolding_all decide),
   (hysteresis_no_reemit hmSpike 115 140).2.2 (by with_unfolding_all decide)⟩

example : (hmSpike.check 115).2.map HAlert.kind = some AlertKind.spike := by
  with_unfolding_all decide

example : ((hmSpike.check 115).1.check 140).2.map HAlert.kind =
    some AlertKind.recovery := by
  with_unfolding_all decide

/-- C2: construction of the hysteresis monitor raises ConfigError exactly
when trigger_threshold and clear_threshold are both explicitly provided and
clear_threshold is at or above trigger_threshold; in particular both equal
to one half raises ConfigError. -/
theorem hysteresis_config_iff (ws : ℤ) (th : ℚ) (trig clr : Option ℚ)
    (nk : Option (List String)) :
    (HMonitor.new ws th trig clr nk = Except.error MonitorError.configError ↔
      ∃ t c, trig = some t ∧ clr = some c ∧ t ≤ c) ∧
    HMonitor.new 60 (1/5) (some (1/2)) (some (1/2)) none =
      Except.error MonitorError.configError := by
  constructor
  · cases trig with
    | none => simp [HMonitor.new]
    | some t =>
        cases clr with
        | none => simp [HMonitor.new]
        | some c =>
            by_cases h : t ≤ c <;> simp [HMonitor.new, h]
  · norm_num [HMonitor.new]

/-- C2 witness: a strictly mis-ordered pair also raises ConfigError, via the
iff of the theorem. -/
theorem hysteresis_config_iff_witness :
    HMonitor.new 60 (1/5) (some (1/2)) (some (3/5)) none =
      Except.error MonitorError.configError :=
  (hysteresis_config_iff 60 (1/5) (some (1/2)) (some (3/5)) none).1.mpr
    ⟨1/2, 3/5, rfl, rfl, by norm_num⟩

/-- C3: with trigger threshold three fifths and clear threshold two fifths,
three negative plus two ok events make check emit a Spike with metric three
fifths and set alert_active; two more ok events (rate three sevenths) leave
check silent with alert_active still set; one further ok event (rate three
eighths) makes check emit a Recovery with metric three eighths and clear
alert_active. -/
theorem hysteresis_scenario_abc :
    HMonitor.new 30 (1/2) (some (3/5)) (some (2/5)) none =
      Except.ok hmScen0 ∧
    (scenA.check 100).2.map HAlert.kind = some AlertKind.spike ∧
    (scenA.check 100).2.map HAlert.metric_value = some (3/5) ∧
    (scenA.check 100).1.alert_active = true ∧
    (scenB.check 100).2 = none ∧
    (scenB.check 100).1.alert_active = true ∧
    (scenC.check 100).2.map HAlert.kind = some AlertKind.recovery ∧
    (scenC.check 100).2.map HAlert.metric_value = some (3/8) ∧
    (scenC.check 100).1.alert_active = false := by
  with_unfolding_all decide

/-- C4 counterexample: summarize does not evict relative to the wall clock;
the state mStale retains an entry at time zero, so at a call time of 1000
its total is one while no entry lies within the trailing window. -/
theorem summarize_not_wallclock :
    ¬ (mStale.summarize.total =
        (mStale.buffer.filter (fun e =>
          decide ((1000 : ℚ) - (mStale.window_seconds : ℚ) ≤ e.ts) &&
          decide (e.ts ≤ (1000 : ℚ)))).length) := by
  with_unfolding_all decide

/-- C4 amended: summarize aggregates the buffer as it stands without
evicting, so its total equals the number of currently retained entries;
eviction relative to the wall clock happens in check, whose post-state
buffer is the head run of entries at or above the cutoff. -/
theorem summarize_counts_retained (m : FeedbackMonitor) (now : ℚ) :
    m.summarize.total = m.buffer.length ∧
    (m.check now).1.buffer =
      m.buffer.dropWhile
        (fun e => decide (e.ts < now - (m.window_seconds : ℚ))) := by
  constructor
  · rfl
  · simp only [FeedbackMonitor.check]
    split <;> rfl

/-- C5: for every monitor state whose negative label set is duplicate-free
(as a Python set is), the negative rate of summarize lies between zero and
one, and it is exactly zero when the window is empty; the rate is defined by
a guarded division, never evaluated on an empty window. -/
theorem negative_rate_bounds (m : FeedbackMonitor)
    (h : m.negative_key.Nodup) :
    0 ≤ m.summarize.negative_rate ∧ m.summarize.negative_rate ≤ 1 ∧
    (m.summarize.total = 0 → m.summarize.negative_rate = 0) := by
  have hle := negative_count_le_total m.buffer m.negative_key h
  rcases httl : (aggregate m.buffer m.negative_key).total with _ | n
  · have hrate : m.summarize.negative_rate = 0 := by
      show (aggregate m.buffer m.negative_key).negative_rate = 0
      unfold aggregate at httl ⊢
      simp only at httl ⊢
      rw [httl]
      norm_num
    refine ⟨by rw [hrate], by rw [hrate]; norm_num, fun _ => hrate⟩
  · have hpos : 0 < (aggregate m.buffer m.negative_key).total := by omega
    have hrate : m.summarize.negative_rate =
        ((aggregate m.buffer m.negative_key).negative_count : ℚ) /
        ((aggregate m.buffer m.negative_key).total : ℚ) := by
      show (aggregate m.buffer m.negative_key).negative_rate = _
      unfold aggregate at hpos ⊢
      simp only at hpos ⊢
      rw [if_pos hpos]
    have htpos : (0 : ℚ) <
        ((aggregate m.buffer m.negative_key).total : ℚ) := by
      exact_mod_cast hpos
    refine ⟨?_, ?_, ?_⟩
    · rw [hrate]
      positivity
    · rw [hrate]
      rw [div_le_one htpos]
      exact_mod_cast hle
    · intro h0
      exfalso
      have : (aggregate m.buffer m.negative_key).total = 0 := h0
      omega

/-- C5 witness: the bounds evaluated on a concrete two-entry monitor whose
rate is one half. -/
theorem negative_rate_bounds_witness :
    0 ≤ mRateW.summarize.negative_rate ∧
    mRateW.summarize.negative_rate ≤ 1 ∧
    (mRateW.summarize.total = 0 → mRateW.summarize.negative_rate = 0) :=
  negative_rate_bounds mRateW (by decide)

example : mRateW.summarize.negative_rate = 1/2 := by
  with_unfolding_all decide

/-- C6: a callback that raises does not propagate out of check, and check
returns exactly the value it returns without a callback, so the same alert
is produced and the alert_active flag of the hysteresis monitor flips to the
same value; this holds for the source class and for the hysteresis variant
alike, for every callback. -/
theorem callback_swallowed (m : FeedbackMonitor) (hm : HMonitor)
    (now1 now2 : ℚ) (cb : Alert → Except String Unit)
    (hcb : HAlert → Except String Unit) :
    m.checkCb now1 cb = Except.ok (m.check now1) ∧
    hm.checkCb now2 hcb = Except.ok (hm.check now2) := by
  constructor
  · simp only [FeedbackMonitor.checkCb, FeedbackMonitor.check, trySwallow_eq]
    split <;> rfl
  · simp only [HMonitor.checkCb, HMonitor.check, trySwallow_eq]
    split <;> split <;> rfl

/-- C6 witness: the equations evaluated with callbacks that always raise,
at states that do emit alerts. -/
theorem callback_swallowed_witness :
    (FeedbackMonitor.init 60 (1/5) none).checkCb 0 cbFail =
      Except.ok ((FeedbackMonitor.init 60 (1/5) none).check 0) ∧
    scenA.checkCb 100 hcbFail = Except.ok (scenA.check 100) :=
  callback_swallowed (FeedbackMonitor.init 60 (1/5) none) scenA 0 100
    cbFail hcbFail

/-- C7 counterexample: after ingesting entries at times 300, 100 and 200
into a sixty-second window, the entry at time 100 lies below the cutoff 140
of the last ingest yet survives behind the newer head, so ingest does not
evict exactly the entries below the cutoff. -/
theorem ingest_keeps_stale_behind_head :
    ¬ (mOoo3.buffer =
        (mOoo2.buffer ++ [(⟨200, "c", none⟩ : WindowEntry)]).filter
          (fun e =>
            decide ((200 : ℚ) - (mOoo2.window_seconds : ℚ) ≤ e.ts))) := by
  with_unfolding_all decide

example : mOoo3.buffer =
    ([⟨300, "a", none⟩, ⟨100, "b", none⟩, ⟨200, "c", none⟩] :
      List WindowEntry) := by
  with_unfolding_all decide

/-- C7 amended: a successful ingest appends the normalized entry at the tail
and then drops the maximal head run of entries below the cutoff given by the
ingested event timestamp minus the window width; when the buffer is sorted
by timestamp, as under chronological ingestion, this evicts exactly the
entries below the cutoff; and replaying an explicitly timestamped stream is
independent of the wall-clock times of the calls. -/
theorem ingest_evicts_head_run :
    (∀ (m : FeedbackMonitor) (now : ℚ) (ev : Event) (o : String) (ts : ℚ),
      ev.outcome = some o → toTs now ev.timestamp = Except.ok ts →
      m.ingestRun now ev =
        ({ m with
            buffer := (m.buffer ++
              [(⟨ts, o, ev.source⟩ : WindowEntry)]).dropWhile
              (fun e => decide (e.ts < ts - (m.window_seconds : ℚ))) },
          none)) ∧
    (∀ (m : FeedbackMonitor) (now : ℚ) (ev : Event) (o : String) (ts : ℚ),
      ev.outcome = some o → toTs now ev.timestamp = Except.ok ts →
      (m.buffer ++ [(⟨ts, o, ev.source⟩ : WindowEntry)]).Pairwise
        (fun a b => a.ts ≤ b.ts) →
      (m.ingestRun now ev).1.buffer =
        (m.buffer ++ [(⟨ts, o, ev.source⟩ : WindowEntry)]).filter
          (fun e => decide (ts - (m.window_seconds : ℚ) ≤ e.ts))) ∧
    (∀ (m : FeedbackMonitor) (evs : List Event) (nows1 nows2 : List ℚ),
      nows1.length = evs.length → nows2.length = evs.length →
      (∀ ev ∈ evs, ev.timestamp ≠ TsValue.null) →
      replayAt m (nows1.zip evs) = replayAt m (nows2.zip evs)) := by
  have h1 : ∀ (m : FeedbackMonitor) (now : ℚ) (ev : Event) (o : String)
      (ts : ℚ), ev.outcome = some o → toTs now ev.timestamp = Except.ok ts →
      m.ingestRun now ev =
        ({ m with
            buffer := (m.buffer ++
              [(⟨ts, o, ev.source⟩ : WindowEntry)]).dropWhile
              (fun e => decide (e.ts < ts - (m.window_seconds : ℚ))) },
          none) := by
    intro m now ev o ts ho ht
    rcases ev with ⟨oo, tsv, src⟩
    simp only at ho ht
    subst ho
    simp [FeedbackMonitor.ingestRun, ht, FeedbackMonitor.expireOld]
  refine ⟨h1, ?_, fun m evs => replayAt_time_indep evs m⟩
  intro m now ev o ts ho ht hsort
  rw [h1 m now ev o ts ho ht]
  exact dropWhile_eq_filter_of_sorted _ _ hsort

/-- C7 witness: the exact-eviction clause and the replay clause evaluated on
a fresh monitor and a one-event stream with an explicit timestamp. -/
theorem ingest_evicts_head_run_witness :
    ((FeedbackMonitor.init 60 (1/5) none).ingestRun 3
        (evAt "ok" 100)).1.buffer =
      (((FeedbackMonitor.init 60 (1/5) none).buffer ++
        [(⟨100, "ok", none⟩ : WindowEntry)]).filter
        (fun e => decide ((100 : ℚ) -
          (((FeedbackMonitor.init 60 (1/5) none) :
            FeedbackMonitor).window_seconds : ℚ) ≤ e.ts))) ∧
    replayAt (FeedbackMonitor.init 60 (1/5) none)
        ([5].zip [evAt "ok" 100]) =
      replayAt (FeedbackMonitor.init 60 (1/5) none)
        ([9].zip [evAt "ok" 100]) :=
  ⟨ingest_evicts_head_run.2.1 (FeedbackMonitor.init 60 (1/5) none) 3
      (evAt "ok" 100) "ok" 100 rfl rfl
      (by simp [FeedbackMonitor.init, evAt]),
   ingest_evicts_head_run.2.2 (FeedbackMonitor.init 60 (1/5) none)
      [evAt "ok" 100] [5] [9] rfl rfl
      (by intro ev h; simp at h; subst h; simp [evAt])⟩

/-- C8: ingest raises the missing-field error exactly when the outcome field
is absent or null, every error path of ingest leaves the state unchanged
(the raise precedes any mutation), and ingest of the empty record raises the
missing-field error. -/
theorem ingest_missing_outcome (m : FeedbackMonitor) (now : ℚ) (ev : Event) :
    ((m.ingestRun now ev).2 = some MonitorError.missingField ↔
      ev.outcome = none) ∧
    (∀ e, (m.ingestRun now ev).2 = some e → (m.ingestRun now ev).1 = m) ∧
    m.ingestRun now
        { outcome := none, timestamp := TsValue.null, source := none } =
      (m, some MonitorError.missingField) := by
  refine ⟨?_, ?_, rfl⟩
  · rcases ev with ⟨o, tsv, src⟩
    cases o with
    | none => simp [FeedbackMonitor.ingestRun]
    | some o =>
        simp only [FeedbackMonitor.ingestRun]
        cases ht : toTs now tsv with
        | error e =>
            simp only [ht]
            constructor
            · intro h
              exfalso
              rcases toTs_error_kinds now tsv e ht with he | he <;>
                simp [he] at h
            · intro h
              simp at h
        | ok ts => simp [ht]
  · intro e
    rcases ev with ⟨o, tsv, src⟩
    cases o with
    | none => intro _; rfl
    | some o =>
        simp only [FeedbackMonitor.ingestRun]
        cases ht : toTs now tsv with
        | error e2 => intro _; rfl
        | ok ts => simp

/-- C8 witness: the empty record evaluated on a fresh monitor raises the
missing-field error and leaves the monitor unchanged. -/
theorem ingest_missing_outcome_witness :
    ((FeedbackMonitor.init 60 (1/5) none).ingestRun 0
        { outcome := none, timestamp := TsValue.null, source := none }).2 =
      some MonitorError.missingField ∧
    ((FeedbackMonitor.init 60 (1/5) none).ingestRun 0
        { outcome := none, timestamp := TsValue.null, source := none }).1 =
      FeedbackMonitor.init 60 (1/5) none :=
  ⟨(ingest_missing_outcome (FeedbackMonitor.init 60 (1/5) none) 0
      { outcome := none, timestamp := TsValue.null, source := none }).1.mpr
      rfl,
   (ingest_missing_outcome (FeedbackMonitor.init 60 (1/5) none) 0
      { outcome := none, timestamp := TsValue.null, source := none }).2.1
      MonitorError.missingField
      ((ingest_missing_outcome (FeedbackMonitor.init 60 (1/5) none) 0
        { outcome := none, timestamp := TsValue.null,
          source := none }).1.mpr rfl)⟩

/-- C9 counterexample: an unparseable timestamp string makes ingest fail
with the parse error of fromisoformat, which in Python is a ValueError, not
the TypeError the claim names. -/
theorem bad_string_is_not_type_error :
    ((FeedbackMonitor.init 60 (1/5) none).ingestRun 0 evBadTs).2 ≠
      some MonitorError.timestampType ∧
    ((FeedbackMonitor.init 60 (1/5) none).ingestRun 0 evBadTs).2 =
      some MonitorError.timestampParse := by
  with_unfolding_all decide

/-- C9 amended: timestamp normalization fails with TypeError exactly for
values that are not null, numeric or string, fails with the ValueError of
the ISO parser exactly for strings that do not parse, and succeeds on the
three accepted forms: null maps to the wall-clock time, numerics are taken
as epoch seconds, and parsed strings without an offset are taken as UTC
while an explicit offset is subtracted. -/
theorem timestamp_normalization (now : ℚ) (v : TsValue) :
    (toTs now v = Except.error MonitorError.timestampType ↔
      v = TsValue.other) ∧
    (toTs now v = Except.error MonitorError.timestampParse ↔
      ∃ s, v = TsValue.str s ∧ isoTimestamp s = none) ∧
    toTs now TsValue.null = Except.ok now ∧
    (∀ x : ℚ, toTs now (TsValue.num x) = Except.ok x) ∧
    (∀ (s : String) (t : ℚ), parseIsoChars s.toList = some (t, none) →
      toTs now (TsValue.str s) = Except.ok t) ∧
    (∀ (s : String) (t off : ℚ),
      parseIsoChars s.toList = some (t, some off) →
      toTs now (TsValue.str s) = Except.ok (t - off)) := by
  refine ⟨?_, ?_, rfl, fun x => rfl, ?_, ?_⟩
  · cases v with
    | null => simp [toTs]
    | num x => simp [toTs]
    | str s =>
        cases hp : isoTimestamp s with
        | none => simp [toTs, hp]
        | some t => simp [toTs, hp]
    | other => simp [toTs]
  · cases v with
    | null => simp [toTs]
    | num x => simp [toTs]
    | str s =>
        cases hp : isoTimestamp s with
        | none => simp [toTs, hp]
        | some t => simp [toTs, hp]
    | other => simp [toTs]
  · intro s t hp
    have hp2 : parseIsoChars s.data = some (t, none) := hp
    simp [toTs, isoTimestamp, hp2]
  · intro s t off hp
    have hp2 : parseIsoChars s.data = some (t, some off) := hp
    simp [toTs, isoTimestamp, hp2]

/-- C9 witness: a parseable naive date string normalizes to its UTC epoch
seconds via the theorem. -/
theorem timestamp_normalization_witness :
    toTs 7 (TsValue.str "2025-01-01") = Except.ok 1735689600 :=
  (timestamp_normalization 7 (TsValue.str "2025-01-01")).2.2.2.2.1
    "2025-01-01" 1735689600 (by decide)

/-- C10: an explicitly empty negative outcome set at construction is
replaced by the default labels, no constructed monitor has an empty negative
outcome set, and after passing an empty set the events with outcome negative
or error are still counted, giving negative count two and rate one on a
two-event window. -/
theorem negative_key_never_empty :
    (∀ (ws : ℤ) (th : ℚ),
      (FeedbackMonitor.init ws th (some [])).negative_key =
        ["negative", "error"]) ∧
    (∀ (ws : ℤ) (th : ℚ) (nk : Option (List String)),
      (FeedbackMonitor.init ws th nk).negative_key ≠ []) ∧
    mEmptyKey2.summarize.negative_count = 2 ∧
    mEmptyKey2.summarize.negative_rate = 1 := by
  refine ⟨fun ws th => rfl, ?_, by with_unfolding_all decide,
    by with_unfolding_all decide⟩
  intro ws th nk
  cases nk with
  | none => simp [FeedbackMonitor.init]
  | some l =>
      simp only [FeedbackMonitor.init]
      split_ifs with h
      · simp
      · simpa [List.isEmpty_iff] using h

/-- C10 witness: the default replacement evaluated at concrete constructor
arguments. -/
theorem negative_key_never_empty_witness :
    (FeedbackMonitor.init 60 (1/5) (some [])).negative_key =
      ["negative", "error"] :=
  negative_key_never_empty.1 60 (1/5)
